import Mathlib

/-
Shallow embedding of `lib/features.js` from fxa-auth-server (the feature-gating
and cohort-sampling module) together with proofs about its decision functions.

Conventions of the embedding:
* JavaScript strings are Lean `String`s; `crypto` hash input is their UTF-8
  byte sequence, modelled as `List Nat` with every element a byte value.
* JavaScript numbers used as sample rates are modelled as `ℚ` (the claims under
  study are order-theoretic, not about binary floating-point rounding).
* A Node `Buffer` is a `List Nat` of byte values; `Buffer#toString('hex')`
  yields its lowercase hexadecimal rendering.
* A configured regular expression is modelled by its extension, a predicate
  `String → Bool` (`RegExp#test`); an optional configuration field is an
  `Option`.  Accessing `.test` on an absent (`undefined`) field is a
  JavaScript `TypeError`, modelled by `Except.error ()`.
-/

namespace FxaAuth

/-! ### SHA-1 (the `crypto.createHash('sha1')` digest used by `hash`) -/

/-- Truncation to a 32-bit word, `n mod 2 ^ 32`. -/
def w32 (n : Nat) : Nat := n % 4294967296

/-- Left rotation of a 32-bit word by `k` bits. -/
def rotl (k n : Nat) : Nat := w32 ((n <<< k) ||| (n >>> (32 - k)))

/-- Big-endian bytes of a 64-bit quantity. -/
def be64 (n : Nat) : List Nat :=
  [(n >>> 56) &&& 255, (n >>> 48) &&& 255, (n >>> 40) &&& 255, (n >>> 32) &&& 255,
   (n >>> 24) &&& 255, (n >>> 16) &&& 255, (n >>> 8) &&& 255, n &&& 255]

/-- Big-endian bytes of a 32-bit word. -/
def be32 (n : Nat) : List Nat :=
  [(n >>> 24) &&& 255, (n >>> 16) &&& 255, (n >>> 8) &&& 255, n &&& 255]

/-- SHA-1 message padding: `0x80`, zeros to 56 mod 64, then the bit length. -/
def sha1pad (msg : List Nat) : List Nat :=
  let len := msg.length
  let zeros := (119 - len % 64) % 64
  msg ++ 128 :: List.replicate zeros 0 ++ be64 (len * 8)

/-- Group bytes into big-endian 32-bit words. -/
def toWords : List Nat → List Nat
  | a :: b :: c :: d :: rest => ((a <<< 24) ||| (b <<< 16) ||| (c <<< 8) ||| d) :: toWords rest
  | _ => []

/-- Extend the 16 chunk words to the 80-word message schedule.  `acc` holds the
words produced so far in reverse order, so `w[i-3]`, `w[i-8]`, `w[i-14]`,
`w[i-16]` sit at indices 2, 7, 13, 15. -/
def extendWords (acc : List Nat) : Nat → List Nat
  | 0 => acc.reverse
  | fuel + 1 =>
    let w := rotl 1 ((((acc.get? 2).getD 0 ^^^ (acc.get? 7).getD 0) ^^^
      (acc.get? 13).getD 0) ^^^ (acc.get? 15).getD 0)
    extendWords (w :: acc) fuel

/-- The SHA-1 round function for round `t`. -/
def sha1f (t b c d : Nat) : Nat :=
  if t < 20 then (b &&& c) ||| ((b ^^^ 4294967295) &&& d)
  else if t < 40 then (b ^^^ c) ^^^ d
  else if t < 60 then ((b &&& c) ||| (b &&& d)) ||| (c &&& d)
  else (b ^^^ c) ^^^ d

/-- The SHA-1 round constant for round `t`. -/
def sha1k (t : Nat) : Nat :=
  if t < 20 then 1518500249
  else if t < 40 then 1859775393
  else if t < 60 then 2400959708
  else 3395469782

/-- Run the 80 SHA-1 rounds over the message schedule. -/
def sha1rounds : List Nat → Nat → Nat × Nat × Nat × Nat × Nat → Nat × Nat × Nat × Nat × Nat
  | [], _, st => st
  | w :: ws, t, (a, b, c, d, e) =>
    let temp := w32 (rotl 5 a + sha1f t b c d + e + sha1k t + w)
    sha1rounds ws (t + 1) (temp, a, rotl 30 b, c, d)

/-- Compress one 64-byte block into the running state. -/
def sha1Block (st : Nat × Nat × Nat × Nat × Nat) (block : List Nat) :
    Nat × Nat × Nat × Nat × Nat :=
  let ws := extendWords (toWords block).reverse 64
  match st, sha1rounds ws 0 st with
  | (h0, h1, h2, h3, h4), (a, b, c, d, e) =>
    (w32 (h0 + a), w32 (h1 + b), w32 (h2 + c), w32 (h3 + d), w32 (h4 + e))

/-- Split a byte list into 64-byte blocks (fuel-driven so that it is
structurally recursive and kernel-reducible). -/
def blocksAux : Nat → List Nat → List (List Nat)
  | 0, _ => []
  | _, [] => []
  | fuel + 1, l => l.take 64 :: blocksAux fuel (l.drop 64)

/-- Split a byte list into 64-byte blocks. -/
def blocks (l : List Nat) : List (List Nat) := blocksAux l.length l

/-- The SHA-1 initial state. -/
def sha1Start : Nat × Nat × Nat × Nat × Nat :=
  (1732584193, 4023233417, 2562383102, 271733878, 3285377520)

/-- SHA-1 of a byte sequence, as its 20-byte digest. -/
def sha1 (msg : List Nat) : List Nat :=
  match (blocks (sha1pad msg)).foldl sha1Block sha1Start with
  | (h0, h1, h2, h3, h4) => be32 h0 ++ be32 h1 ++ be32 h2 ++ be32 h3 ++ be32 h4

/-! ### Hexadecimal text, UTF-8 and `parseInt(s, 16)` -/

/-- Lowercase hexadecimal digit character for a value below 16. -/
def hexDigitChar (n : Nat) : Char :=
  if n < 10 then Char.ofNat (48 + n) else Char.ofNat (87 + n)

/-- Two lowercase hex characters of one byte (as in `Buffer#toString('hex')`
and in `Hash#digest('hex')`). -/
def byteHexChars (n : Nat) : List Char :=
  [hexDigitChar (n / 16 % 16), hexDigitChar (n % 16)]

/-- Lowercase hexadecimal rendering of a byte sequence. -/
def hexOfBytes (l : List Nat) : String := ⟨(l.map byteHexChars).flatten⟩

/-- `Buffer#toString('hex')`: lowercase hex text of a buffer. -/
def hexEncode (b : List Nat) : String := hexOfBytes b

/-- UTF-8 bytes of one character. -/
def utf8Char (c : Char) : List Nat :=
  let n := c.toNat
  if n < 128 then [n]
  else if n < 2048 then [192 ||| (n >>> 6), 128 ||| (n &&& 63)]
  else if n < 65536 then
    [224 ||| (n >>> 12), 128 ||| ((n >>> 6) &&& 63), 128 ||| (n &&& 63)]
  else
    [240 ||| (n >>> 18), 128 ||| ((n >>> 12) &&& 63), 128 ||| ((n >>> 6) &&& 63),
     128 ||| (n &&& 63)]

/-- UTF-8 bytes of a string (what `Hash#update` feeds to the digest). -/
def utf8Bytes (s : String) : List Nat := (s.data.map utf8Char).flatten

/-- Whether a character is a hexadecimal digit. -/
def isHexChar (c : Char) : Bool :=
  (48 ≤ c.toNat && c.toNat ≤ 57) || (97 ≤ c.toNat && c.toNat ≤ 102) ||
    (65 ≤ c.toNat && c.toNat ≤ 70)

/-- Numeric value of a hexadecimal digit character. -/
def hexCharVal (c : Char) : Nat :=
  if c.toNat ≤ 57 then c.toNat - 48
  else if c.toNat ≤ 70 then c.toNat - 55
  else c.toNat - 87

/-- `parseInt(s, 16)` on the strings this module produces: parse the leading
run of hexadecimal digits as a base-16 unsigned integer.  (The further
`parseInt` frills — whitespace skipping, signs, `0x` — never arise on a hex
digest nor on an all-`f` literal.) -/
def parseHex (s : String) : Nat :=
  (s.data.takeWhile isHexChar).foldl (fun acc c => 16 * acc + hexCharVal c) 0

/-- `String#substr(start)` on ASCII text: drop the first `start` characters.
(JavaScript `substr` counts UTF-16 code units; on the hex digests it is
applied to, code units and characters coincide.) -/
def substrFrom (s : String) (start : Nat) : String := ⟨s.data.drop start⟩


/-! ### The `features` module (`lib/features.js`) -/

/-- A user id as accepted by the module: a Node `Buffer` or a string
(`@param uid   Buffer or String`). -/
inductive Uid where
  | buf (b : List Nat)
  | str (s : String)

/-- `lib/features.js`, `hash(uid, key)`: SHA-1 of `uid` then `key`
(two `Hash#update` calls concatenate), rendered as lowercase hex. -/
def hash (uid key : String) : String :=
  hexOfBytes (sha1 (utf8Bytes uid ++ utf8Bytes key))

/-- `HASH_LENGTH = hash('', '').length`. -/
def HASH_LENGTH : Nat := (hash "" "").length

/-- `Number.MAX_SAFE_INTEGER`, `2 ^ 53 - 1`. -/
def MAX_SAFE_INTEGER : Nat := 2 ^ 53 - 1

/-- `MAX_SAFE_HEX = Number.MAX_SAFE_INTEGER.toString(16)`. -/
def MAX_SAFE_HEX : String := ⟨Nat.toDigits 16 MAX_SAFE_INTEGER⟩

/-- `MAX_SAFE_HEX_LENGTH = MAX_SAFE_HEX.length - MAX_SAFE_HEX.indexOf('f')`. -/
def MAX_SAFE_HEX_LENGTH : Nat :=
  MAX_SAFE_HEX.length - MAX_SAFE_HEX.data.findIdx (fun c => c == 'f')

/-- `COHORT_DIVISOR = parseInt(Array(MAX_SAFE_HEX_LENGTH).fill('f').join(''), 16)`. -/
def COHORT_DIVISOR : Nat := parseHex ⟨List.replicate MAX_SAFE_HEX_LENGTH 'f'⟩

/-- The cohort value of (hex-text) uid and feature key: the trailing
`MAX_SAFE_HEX_LENGTH` hex characters of the digest, parsed as an unsigned
integer and divided by `COHORT_DIVISOR`. -/
def cohortQ (uid key : String) : ℚ :=
  (parseHex (substrFrom (hash uid key) (HASH_LENGTH - MAX_SAFE_HEX_LENGTH)) : ℚ) /
    (COHORT_DIVISOR : ℚ)

/-- The string the sampler hashes: a `Buffer` uid is first converted by
`uid.toString('hex')`, a string uid is used as is. -/
def normalizeUid : Uid → String
  | .buf b => hexEncode b
  | .str s => s

/-- The cohort value of a `Uid`. -/
def cohortOf (uid : Uid) (key : String) : ℚ := cohortQ (normalizeUid uid) key

/-- `isSampledUser(sampleRate, uid, key)`. -/
def isSampledUser (sampleRate : ℚ) (uid : Uid) (key : String) : Bool :=
  if sampleRate = 1 then true
  else if sampleRate = 0 then false
  else decide (cohortQ (normalizeUid uid) key < sampleRate)

/-- `isSampledUser` instrumented with the number of digest computations the
call performs: the fast paths for rates 1 and 0 return before `hash` is
reached; the general path computes the digest exactly once. -/
def isSampledUserT (sampleRate : ℚ) (uid : Uid) (key : String) : Bool × Nat :=
  if sampleRate = 1 then (true, 0)
  else if sampleRate = 0 then (false, 0)
  else (decide (cohortQ (normalizeUid uid) key < sampleRate), 1)

/-- An email pattern: the extension of a configured `RegExp` via its `test`. -/
def Pattern : Type := String → Bool

/-- Guarded test of an optional pattern, `p && p.test(email)`; an absent
pattern never matches. -/
def testOpt (p : Option Pattern) (email : String) : Bool :=
  match p with
  | some q => q email
  | none => false

/-- `config.lastAccessTimeUpdates`. -/
structure LastAccessTimeUpdatesConfig where
  enabled : Bool
  sampleRate : ℚ
  enabledEmailAddresses : Option Pattern

/-- `config.signinConfirmation` (its pattern, client list and rate are read
unguarded by the code, so they are required fields here; the rate field keeps
the source's `sample_rate` spelling). -/
structure SigninConfirmationConfig where
  enabled : Bool
  sample_rate : ℚ
  forcedEmailAddresses : Pattern
  supportedClients : List String

/-- `config.signinUnblock`; `forcedEmailAddresses` is accessed behind an `&&`
guard, `allowedEmailAddresses` is accessed unguarded, hence both are `Option`
and an absent allowed pattern can fault. -/
structure SigninUnblockConfig where
  enabled : Bool
  sampleRate : ℚ
  forcedEmailAddresses : Option Pattern
  allowedEmailAddresses : Option Pattern
  supportedClients : List String

/-- `config.securityHistory.ipProfiling`. -/
structure IpProfilingConfig where
  enabled : Bool

/-- `config.securityHistory`; `ipProfiling` is accessed behind an `&&` guard. -/
structure SecurityHistoryConfig where
  enabled : Bool
  ipProfiling : Option IpProfilingConfig

/-- The configuration record the module closes over. -/
structure Config where
  lastAccessTimeUpdates : LastAccessTimeUpdatesConfig
  signinConfirmation : SigninConfirmationConfig
  signinUnblock : SigninUnblockConfig
  securityHistory : SecurityHistoryConfig

/-- `request.payload.metricsContext`; the `context` field may itself be
absent (`undefined`). -/
structure MetricsContext where
  context : Option String

/-- `request.payload`. -/
structure Payload where
  metricsContext : Option MetricsContext

/-- `request.app`. -/
structure AppData where
  isSuspiciousRequest : Bool

/-- The request object as the module reads it. -/
structure Request where
  app : AppData
  payload : Option Payload

/-- The truthiness chain
`request.payload && request.payload.metricsContext &&
request.payload.metricsContext.context`: `none` when any link is absent. -/
def contextOf (request : Request) : Option String :=
  (request.payload.bind (fun p => p.metricsContext)).bind (fun m => m.context)

/-- `supportedClients.indexOf(context) !== -1`: an absent context value is
never an element of a list of configured client strings. -/
def contextSupported (clients : List String) (ctx : Option String) : Bool :=
  match ctx with
  | some s => clients.contains s
  | none => false

/-- `isLastAccessTimeEnabledForUser(uid, email)`, line for line:
`lastAccessTimeUpdates.enabled && (isSampledUser(...) || ...test(email))`.
When the feature is enabled, the user is not sampled and
`enabledEmailAddresses` is absent, reading `.test` of `undefined` is a
`TypeError` (`Except.error ()`). -/
def isLastAccessTimeEnabledForUser (config : Config) (uid : Uid) (email : String) :
    Except Unit Bool :=
  if !config.lastAccessTimeUpdates.enabled then .ok false
  else if isSampledUser config.lastAccessTimeUpdates.sampleRate uid "lastAccessTimeUpdates" then
    .ok true
  else
    match config.lastAccessTimeUpdates.enabledEmailAddresses with
    | none => .error ()
    | some p => .ok (p email)

/-- `isSigninConfirmationEnabledForUser(uid, email, request)`, line for line. -/
def isSigninConfirmationEnabledForUser (config : Config) (uid : Uid) (email : String)
    (request : Request) : Bool :=
  if !config.signinConfirmation.enabled then false
  else if request.app.isSuspiciousRequest then true
  else if config.signinConfirmation.forcedEmailAddresses email then true
  else if !contextSupported config.signinConfirmation.supportedClients (contextOf request) then
    false
  else isSampledUser config.signinConfirmation.sample_rate uid "signinConfirmation"

/-- `isSigninConfirmationEnabledForUser` instrumented with the number of
sampler (`isSampledUser`) invocations the call performs. -/
def isSigninConfirmationEnabledForUserT (config : Config) (uid : Uid) (email : String)
    (request : Request) : Bool × Nat :=
  if !config.signinConfirmation.enabled then (false, 0)
  else if request.app.isSuspiciousRequest then (true, 0)
  else if config.signinConfirmation.forcedEmailAddresses email then (true, 0)
  else if !contextSupported config.signinConfirmation.supportedClients (contextOf request) then
    (false, 0)
  else (isSampledUser config.signinConfirmation.sample_rate uid "signinConfirmation", 1)

/-- `isSigninUnblockEnabledForUser(uid, email, request)`, line for line.
`forcedEmailAddresses` is tested behind an `&&` guard; reading
`allowedEmailAddresses.test` when that field is absent is a `TypeError`. -/
def isSigninUnblockEnabledForUser (config : Config) (uid : Uid) (email : String)
    (request : Request) : Except Unit Bool :=
  if !config.signinUnblock.enabled then .ok false
  else if testOpt config.signinUnblock.forcedEmailAddresses email then .ok true
  else
    match config.signinUnblock.allowedEmailAddresses with
    | none => .error ()
    | some p =>
      if p email then .ok true
      else if !contextSupported config.signinUnblock.supportedClients (contextOf request) then
        .ok false
      else .ok (isSampledUser config.signinUnblock.sampleRate uid "signinUnblock")

/-- `isSigninUnblockEnabledForUser` instrumented with the number of sampler
invocations the call performs. -/
def isSigninUnblockEnabledForUserT (config : Config) (uid : Uid) (email : String)
    (request : Request) : Except Unit (Bool × Nat) :=
  if !config.signinUnblock.enabled then .ok (false, 0)
  else if testOpt config.signinUnblock.forcedEmailAddresses email then .ok (true, 0)
  else
    match config.signinUnblock.allowedEmailAddresses with
    | none => .error ()
    | some p =>
      if p email then .ok (true, 0)
      else if !contextSupported config.signinUnblock.supportedClients (contextOf request) then
        .ok (false, 0)
      else .ok (isSampledUser config.signinUnblock.sampleRate uid "signinUnblock", 1)

/-- `canBypassSiginConfirmation(email, verified, recency)` (the source's
spelling).  The JavaScript `let ipProfilingEnabled = securityHistory.enabled &&
securityHistory.ipProfiling && securityHistory.ipProfiling.enabled` yields the
falsy `undefined` when `ipProfiling` is absent, and the function then returns
that falsy value; the embedding collapses falsy results to `false`. -/
def canBypassSiginConfirmation (config : Config) (email : String) (verified : Bool)
    (recency : String) : Bool :=
  if config.signinConfirmation.enabled && config.signinConfirmation.forcedEmailAddresses email then
    false
  else
    let ipProfilingEnabled := config.securityHistory.enabled &&
      (match config.securityHistory.ipProfiling with
       | some p => p.enabled
       | none => false)
    ipProfilingEnabled && verified && decide (recency = "day")

/-! ### Concrete fixtures used by witnesses and counterexamples -/

/-- A pattern matching no email (e.g. the regex `/^$/` on non-empty emails). -/
def patNone : Pattern := fun _ => false

/-- A pattern matching every email (the regex `/.+/`). -/
def patAll : Pattern := fun _ => true

/-- A request that is not suspicious and carries a supported client context. -/
def requestW : Request :=
  { app := { isSuspiciousRequest := false },
    payload := some { metricsContext := some { context := some "fx_desktop_v3" } } }

/-- A fully populated configuration. -/
def configW : Config :=
  { lastAccessTimeUpdates :=
      { enabled := true, sampleRate := 0, enabledEmailAddresses := some patNone },
    signinConfirmation :=
      { enabled := true, sample_rate := 1, forcedEmailAddresses := patNone,
        supportedClients := ["fx_desktop_v3"] },
    signinUnblock :=
      { enabled := true, sampleRate := 1, forcedEmailAddresses := none,
        allowedEmailAddresses := some patNone, supportedClients := ["fx_desktop_v3"] },
    securityHistory := { enabled := true, ipProfiling := some { enabled := true } } }

/-- A configuration whose sign-in confirmation is enabled with an all-matching
forced pattern. -/
def configForced : Config :=
  { configW with
    signinConfirmation :=
      { enabled := true, sample_rate := 1, forcedEmailAddresses := patAll,
        supportedClients := ["fx_desktop_v3"] } }

/-- A configuration in which every optional email pattern is absent, sign-in
unblock and last-access-time updates are enabled, and the last-access-time
sample rate is 0. -/
def configAbsent : Config :=
  { lastAccessTimeUpdates :=
      { enabled := true, sampleRate := 0, enabledEmailAddresses := none },
    signinConfirmation :=
      { enabled := false, sample_rate := 0, forcedEmailAddresses := patNone,
        supportedClients := [] },
    signinUnblock :=
      { enabled := true, sampleRate := 1/2, forcedEmailAddresses := none,
        allowedEmailAddresses := none, supportedClients := ["fx_desktop_v3"] },
    securityHistory := { enabled := false, ipProfiling := none } }

/-- A configuration with sign-in confirmation disabled but its forced pattern
matching everything, and security history plus IP profiling enabled. -/
def configBypassCex : Config :=
  { lastAccessTimeUpdates :=
      { enabled := false, sampleRate := 0, enabledEmailAddresses := none },
    signinConfirmation :=
      { enabled := false, sample_rate := 1, forcedEmailAddresses := patAll,
        supportedClients := [] },
    signinUnblock :=
      { enabled := false, sampleRate := 0, forcedEmailAddresses := none,
        allowedEmailAddresses := none, supportedClients := [] },
    securityHistory := { enabled := true, ipProfiling := some { enabled := true } } }

/-! ### The module-level constants (`features.js` lines 138-141) -/

/-- The digest text is 40 characters long, so `HASH_LENGTH` is 40. -/
theorem HASH_LENGTH_value : HASH_LENGTH = 40 := by rfl

/-- `Number.MAX_SAFE_INTEGER.toString(16)` is `"1fffffffffffff"`. -/
theorem MAX_SAFE_HEX_value : MAX_SAFE_HEX = "1fffffffffffff" := by rfl

/-- The trailing window is 13 hex characters wide. -/
theorem MAX_SAFE_HEX_LENGTH_value : MAX_SAFE_HEX_LENGTH = 13 := by rfl

/-- The cohort divisor is the 13-digit all-`f` value `0xfffffffffffff`. -/
theorem COHORT_DIVISOR_value : COHORT_DIVISOR = 4503599627370495 := by rfl

/-! ### Sampler theorems -/

/-- Claim C3: for every identity key and feature key,
`isSampledUser(1, uid, key)` is `true` and `isSampledUser(0, uid, key)` is
`false`, and in both cases the fast path performs zero digest computations
(second component of the instrumented sampler). -/
theorem isSampledUser_fast_paths (uid : Uid) (key : String) :
    isSampledUser 1 uid key = true ∧ isSampledUser 0 uid key = false ∧
    isSampledUserT 1 uid key = (true, 0) ∧ isSampledUserT 0 uid key = (false, 0) := by
  refine ⟨?_, ?_, ?_, ?_⟩ <;> simp [isSampledUser, isSampledUserT]

/-- The instrumented sampler computes the same decision as `isSampledUser`. -/
theorem isSampledUserT_fst (rate : ℚ) (uid : Uid) (key : String) :
    (isSampledUserT rate uid key).1 = isSampledUser rate uid key := by
  by_cases h1 : rate = 1 <;> by_cases h0 : rate = 0 <;>
    simp [isSampledUser, isSampledUserT, h1, h0]

/-- Claim C2: a derived cohort value exactly equal to the sample rate is not
sampled, because the decision on the cohort-deriving path is the strict
inequality `cohort < sampleRate`.  The sample rate ranges over `[0, 1]`; a
cohort value is derived only on the general path, i.e. when the rate is
neither 0 nor 1 (the fast paths of claim C3 answer before any digest or
cohort is computed), so the equality hypothesis concerns rates below 1, and
at rate 0 the result is `false` unconditionally. -/
theorem isSampledUser_strict_boundary (rate : ℚ) (uid : Uid) (key : String)
    (h0 : 0 ≤ rate) (h1 : rate ≤ 1) :
    (cohortOf uid key = rate → rate ≠ 1 → isSampledUser rate uid key = false) ∧
    (rate ≠ 0 → rate ≠ 1 → isSampledUser rate uid key = decide (cohortOf uid key < rate)) := by
  refine ⟨fun hc hne1 => ?_, fun hne0 hne1 => ?_⟩
  · by_cases hz : rate = 0
    · subst hz
      simp [isSampledUser]
    · simp only [isSampledUser, if_neg hne1, if_neg hz]
      rw [show cohortQ (normalizeUid uid) key = rate from hc]
      simp
  · simp only [isSampledUser, if_neg hne1, if_neg hne0, cohortOf]

/-- Witness for claim C2's theorem at rate `1/2`, uid `"00"`, key `"wibble"`. -/
theorem isSampledUser_strict_boundary_witness :
    (0 : ℚ) ≤ 1/2 ∧ (1/2 : ℚ) ≤ 1 ∧
    ((cohortOf (Uid.str "00") "wibble" = 1/2 → (1/2 : ℚ) ≠ 1 →
        isSampledUser (1/2) (Uid.str "00") "wibble" = false) ∧
     ((1/2 : ℚ) ≠ 0 → (1/2 : ℚ) ≠ 1 →
        isSampledUser (1/2) (Uid.str "00") "wibble" =
          decide (cohortOf (Uid.str "00") "wibble" < 1/2))) :=
  ⟨by norm_num, by norm_num,
    isSampledUser_strict_boundary (1/2) (Uid.str "00") "wibble" (by norm_num) (by norm_num)⟩

/-- Claim C10: a `Buffer` identity key and its lowercase hexadecimal text form
receive identical sampling decisions, because the sampler normalizes a binary
identity with `uid.toString('hex')` before hashing. -/
theorem isSampledUser_buffer_hex (rate : ℚ) (b : List Nat) (key : String) :
    isSampledUser rate (Uid.buf b) key = isSampledUser rate (Uid.str (hexEncode b)) key := rfl

/-! ### Feature-gate theorems -/

/-- Claim C4: `isSigninConfirmationEnabledForUser` is `false` on a disabled
feature regardless of the other inputs; otherwise `true` on a suspicious
request; otherwise `true` on a forced-pattern email; otherwise `false` on an
unsupported client context; otherwise exactly the sampler decision at the
feature's rate with key `"signinConfirmation"` — the flattened boolean normal
form on the right encodes this precedence order, and the instrumented variant
shows the sampler is invoked exactly once on the residual branch and never by
an override branch. -/
theorem signinConfirmation_gate_spec (config : Config) (uid : Uid) (email : String)
    (request : Request) :
    isSigninConfirmationEnabledForUser config uid email request =
      (config.signinConfirmation.enabled &&
        (request.app.isSuspiciousRequest ||
         config.signinConfirmation.forcedEmailAddresses email ||
         (contextSupported config.signinConfirmation.supportedClients (contextOf request) &&
          isSampledUser config.signinConfirmation.sample_rate uid "signinConfirmation"))) ∧
    isSigninConfirmationEnabledForUserT config uid email request =
      (isSigninConfirmationEnabledForUser config uid email request,
       if config.signinConfirmation.enabled && !request.app.isSuspiciousRequest &&
          !config.signinConfirmation.forcedEmailAddresses email &&
          contextSupported config.signinConfirmation.supportedClients (contextOf request)
       then 1 else 0) := by
  cases hE : config.signinConfirmation.enabled <;>
  cases hS : request.app.isSuspiciousRequest <;>
  cases hF : config.signinConfirmation.forcedEmailAddresses email <;>
  cases hC : contextSupported config.signinConfirmation.supportedClients (contextOf request) <;>
    simp [isSigninConfirmationEnabledForUser, isSigninConfirmationEnabledForUserT, hE, hS, hF, hC]

/-- Claim C5: when the allowed-email pattern is present (the definite
"the allowed-email pattern" of the claim; an absent one faults instead, see
claim C8), `isSigninUnblockEnabledForUser` is `false` on a disabled feature;
otherwise `true` when a forced pattern is configured and matches; otherwise
`true` on an allowed email; otherwise `false` on an unsupported context;
otherwise exactly the sampler decision at the feature's rate with key
`"signinUnblock"`; the instrumented variant shows the sampler is consulted
only on that residual branch. -/
theorem signinUnblock_gate_spec (config : Config) (uid : Uid) (email : String)
    (request : Request) (allowed : Pattern)
    (hA : config.signinUnblock.allowedEmailAddresses = some allowed) :
    isSigninUnblockEnabledForUser config uid email request =
      .ok (config.signinUnblock.enabled &&
        (testOpt config.signinUnblock.forcedEmailAddresses email ||
         allowed email ||
         (contextSupported config.signinUnblock.supportedClients (contextOf request) &&
          isSampledUser config.signinUnblock.sampleRate uid "signinUnblock"))) ∧
    isSigninUnblockEnabledForUserT config uid email request =
      .ok (config.signinUnblock.enabled &&
        (testOpt config.signinUnblock.forcedEmailAddresses email ||
         allowed email ||
         (contextSupported config.signinUnblock.supportedClients (contextOf request) &&
          isSampledUser config.signinUnblock.sampleRate uid "signinUnblock")),
       if config.signinUnblock.enabled &&
          !testOpt config.signinUnblock.forcedEmailAddresses email && !allowed email &&
          contextSupported config.signinUnblock.supportedClients (contextOf request)
       then 1 else 0) := by
  cases hE : config.signinUnblock.enabled <;>
  cases hF : testOpt config.signinUnblock.forcedEmailAddresses email <;>
  cases hAl : allowed email <;>
  cases hC : contextSupported config.signinUnblock.supportedClients (contextOf request) <;>
    simp [isSigninUnblockEnabledForUser, isSigninUnblockEnabledForUserT, hA, hE, hF, hAl, hC]

/-- Witness for claim C5's theorem at `configW` (allowed pattern `patNone`). -/
theorem signinUnblock_gate_spec_witness :
    configW.signinUnblock.allowedEmailAddresses = some patNone ∧
    (isSigninUnblockEnabledForUser configW (Uid.str "wibble") "a@b.c" requestW =
      .ok (configW.signinUnblock.enabled &&
        (testOpt configW.signinUnblock.forcedEmailAddresses "a@b.c" ||
         patNone "a@b.c" ||
         (contextSupported configW.signinUnblock.supportedClients (contextOf requestW) &&
          isSampledUser configW.signinUnblock.sampleRate (Uid.str "wibble") "signinUnblock"))) ∧
     isSigninUnblockEnabledForUserT configW (Uid.str "wibble") "a@b.c" requestW =
      .ok (configW.signinUnblock.enabled &&
        (testOpt configW.signinUnblock.forcedEmailAddresses "a@b.c" ||
         patNone "a@b.c" ||
         (contextSupported configW.signinUnblock.supportedClients (contextOf requestW) &&
          isSampledUser configW.signinUnblock.sampleRate (Uid.str "wibble") "signinUnblock")),
       if configW.signinUnblock.enabled &&
          !testOpt configW.signinUnblock.forcedEmailAddresses "a@b.c" && !patNone "a@b.c" &&
          contextSupported configW.signinUnblock.supportedClients (contextOf requestW)
       then 1 else 0)) :=
  ⟨rfl, signinUnblock_gate_spec configW (Uid.str "wibble") "a@b.c" requestW patNone rfl⟩

/-- Claim C6: `canBypassSiginConfirmation` is `true` exactly when sign-in
confirmation is not forcing the email (feature enabled and forced pattern
matching), security history is enabled, its IP-profiling sub-feature is
enabled, the session is verified and the recency bucket is `"day"`; so making
any of the four profiling conjuncts negative makes the result `false`. -/
theorem canBypass_spec (config : Config) (email : String) (verified : Bool)
    (recency : String) :
    canBypassSiginConfirmation config email verified recency =
      (!(config.signinConfirmation.enabled &&
         config.signinConfirmation.forcedEmailAddresses email) &&
       (config.securityHistory.enabled &&
        (match config.securityHistory.ipProfiling with
         | some p => p.enabled
         | none => false) &&
        verified && decide (recency = "day"))) := by
  cases hF : (config.signinConfirmation.enabled &&
      config.signinConfirmation.forcedEmailAddresses email) <;>
    simp [canBypassSiginConfirmation, hF]

/-- Claim C7 counterexample: with sign-in confirmation disabled but its forced
pattern matching every email, and security history plus IP profiling enabled,
a forced-pattern email still yields `true` for a verified "day"-recency
session — the claim demands `false` across all gate configurations. -/
theorem canBypass_forced_email_cex :
    configBypassCex.signinConfirmation.forcedEmailAddresses "pat@example.com" = true ∧
    canBypassSiginConfirmation configBypassCex "pat@example.com" true "day" = true := by
  exact ⟨rfl, by rfl⟩

/-- Claim C7 as amended: when sign-in confirmation is enabled, an email
matching its forced pattern makes `canBypassSiginConfirmation` return `false`
regardless of the verified flag, the recency value and the security-history
and IP-profiling flags. -/
theorem canBypass_forced_email_enabled (config : Config) (email : String)
    (verified : Bool) (recency : String)
    (hE : config.signinConfirmation.enabled = true)
    (hF : config.signinConfirmation.forcedEmailAddresses email = true) :
    canBypassSiginConfirmation config email verified recency = false := by
  simp [canBypassSiginConfirmation, hE, hF]

/-- Witness for claim C7's amended theorem at `configForced`. -/
theorem canBypass_forced_email_enabled_witness :
    configForced.signinConfirmation.enabled = true ∧
    configForced.signinConfirmation.forcedEmailAddresses "x@y.z" = true ∧
    canBypassSiginConfirmation configForced "x@y.z" true "day" = false :=
  ⟨rfl, rfl, canBypass_forced_email_enabled configForced "x@y.z" true "day" rfl rfl⟩

/-- Claim C8 counterexample: with the sign-in-unblock feature enabled and both
of its optional patterns absent, the gate faults (the JavaScript reads `.test`
of `undefined`) instead of returning a definite boolean, and so does the
last-access-time gate when enabled with an absent enabled-email pattern and an
unsampled user. -/
theorem absent_pattern_cex :
    isSigninUnblockEnabledForUser configAbsent (Uid.str "wibble") "a@b.c" requestW =
      .error () ∧
    isLastAccessTimeEnabledForUser configAbsent (Uid.str "wibble") "a@b.c" = .error () := by
  constructor
  · rfl
  · rfl

/-- Claim C8 as amended: an absent sign-in-unblock forced-email pattern is
treated as matching no email (the gate behaves exactly as with a
never-matching pattern) and causes no fault; but an absent sign-in-unblock
allowed-email pattern faults whenever the feature is enabled and the forced
pattern does not match, and an absent last-access-time enabled-email pattern
faults whenever that feature is enabled and the user is not sampled. -/
theorem absent_pattern_policy (config : Config) (uid : Uid) (email : String)
    (request : Request) :
    (config.signinUnblock.forcedEmailAddresses = none →
      isSigninUnblockEnabledForUser config uid email request =
        isSigninUnblockEnabledForUser
          { config with signinUnblock :=
              { config.signinUnblock with forcedEmailAddresses := some (fun _ => false) } }
          uid email request) ∧
    (config.signinUnblock.allowedEmailAddresses = none →
      config.signinUnblock.enabled = true →
      testOpt config.signinUnblock.forcedEmailAddresses email = false →
      isSigninUnblockEnabledForUser config uid email request = .error ()) ∧
    (config.lastAccessTimeUpdates.enabledEmailAddresses = none →
      config.lastAccessTimeUpdates.enabled = true →
      isSampledUser config.lastAccessTimeUpdates.sampleRate uid "lastAccessTimeUpdates" = false →
      isLastAccessTimeEnabledForUser config uid email = .error ()) := by
  refine ⟨fun hF => ?_, fun hA hE hT => ?_, fun hP hE hS => ?_⟩
  · simp [isSigninUnblockEnabledForUser, testOpt, hF]
  · simp [isSigninUnblockEnabledForUser, hA, hE, hT]
  · simp [isLastAccessTimeEnabledForUser, hP, hE, hS]

/-- Witness for claim C8's amended theorem at `configAbsent`. -/
theorem absent_pattern_policy_witness :
    (isSigninUnblockEnabledForUser configAbsent (Uid.str "u") "a@b.c" requestW =
      isSigninUnblockEnabledForUser
        { configAbsent with signinUnblock :=
            { configAbsent.signinUnblock with forcedEmailAddresses := some (fun _ => false) } }
        (Uid.str "u") "a@b.c" requestW) ∧
    isSigninUnblockEnabledForUser configAbsent (Uid.str "u") "a@b.c" requestW = .error () ∧
    isLastAccessTimeEnabledForUser configAbsent (Uid.str "u") "a@b.c" = .error () := by
  have h := absent_pattern_policy configAbsent (Uid.str "u") "a@b.c" requestW
  exact ⟨h.1 rfl, h.2.1 rfl rfl rfl, h.2.2 rfl rfl (by simp [isSampledUser, configAbsent])⟩

/-- Claim C9: when the enabled-email pattern is present (the definite
"the enabled-email pattern" of the claim; an absent one faults instead, see
claim C8), `isLastAccessTimeEnabledForUser` is `false` on a disabled feature
and otherwise `true` exactly when the sampler decision at the feature's rate
with key `"lastAccessTimeUpdates"` holds or the email matches the pattern —
a plain disjunction in which either disjunct alone suffices. -/
theorem lastAccessTime_gate_spec (config : Config) (uid : Uid) (email : String)
    (p : Pattern) (hP : config.lastAccessTimeUpdates.enabledEmailAddresses = some p) :
    isLastAccessTimeEnabledForUser config uid email =
      .ok (config.lastAccessTimeUpdates.enabled &&
        (isSampledUser config.lastAccessTimeUpdates.sampleRate uid "lastAccessTimeUpdates" ||
         p email)) := by
  cases hE : config.lastAccessTimeUpdates.enabled <;>
  cases hS : isSampledUser config.lastAccessTimeUpdates.sampleRate uid "lastAccessTimeUpdates" <;>
    simp [isLastAccessTimeEnabledForUser, hP, hE, hS]

/-- Witness for claim C9's theorem at `configW` (pattern `patNone`). -/
theorem lastAccessTime_gate_spec_witness :
    configW.lastAccessTimeUpdates.enabledEmailAddresses = some patNone ∧
    isLastAccessTimeEnabledForUser configW (Uid.str "wibble") "a@b.c" =
      .ok (configW.lastAccessTimeUpdates.enabled &&
        (isSampledUser configW.lastAccessTimeUpdates.sampleRate (Uid.str "wibble")
            "lastAccessTimeUpdates" ||
         patNone "a@b.c")) :=
  ⟨rfl, lastAccessTime_gate_spec configW (Uid.str "wibble") "a@b.c" patNone rfl⟩

/-! ### Cohort-value structure and bounds (the provable parts of the
sampling-pipeline description) -/

/-- Hex rendering doubles the byte count. -/
theorem hexOfBytes_data_length (l : List Nat) : (hexOfBytes l).data.length = 2 * l.length := by
  induction l with
  | nil => rfl
  | cons a t ih =>
    simp only [hexOfBytes, List.map_cons, List.flatten_cons, byteHexChars] at *
    simp only [List.length_append, List.length_cons, List.length_nil] at *
    omega

/-- A SHA-1 digest is 20 bytes. -/
theorem sha1_length (msg : List Nat) : (sha1 msg).length = 20 := by
  unfold sha1
  rcases (blocks (sha1pad msg)).foldl sha1Block sha1Start with ⟨h0, h1, h2, h3, h4⟩
  simp [be32]

/-- Every digest the module renders is 40 characters long. -/
theorem hash_length (uid key : String) : (hash uid key).length = 40 := by
  show (hash uid key).data.length = 40
  rw [hash, hexOfBytes_data_length, sha1_length]

/-- A hexadecimal digit character has value below 16. -/
theorem hexCharVal_lt_16 (c : Char) (h : isHexChar c = true) : hexCharVal c < 16 := by
  simp only [isHexChar, Bool.or_eq_true, Bool.and_eq_true, decide_eq_true_eq] at h
  have key : ∀ n : Nat, ((48 ≤ n ∧ n ≤ 57) ∨ (97 ≤ n ∧ n ≤ 102)) ∨ (65 ≤ n ∧ n ≤ 70) →
      (if n ≤ 57 then n - 48 else if n ≤ 70 then n - 55 else n - 87) < 16 := by
    intro n hn
    rcases hn with (⟨h1, h2⟩ | ⟨h1, h2⟩) | ⟨h1, h2⟩ <;> split <;> (try split) <;> omega
  simpa [hexCharVal] using key c.toNat h

/-- The base-16 accumulation of hexadecimal digits stays below
`(acc + 1) * 16 ^ length`. -/
theorem parseHexFold_lt (l : List Char) (acc : Nat)
    (h : ∀ c ∈ l, isHexChar c = true) :
    l.foldl (fun a c => 16 * a + hexCharVal c) acc < (acc + 1) * 16 ^ l.length := by
  induction l generalizing acc with
  | nil => simp
  | cons c t ih =>
    have hc : hexCharVal c < 16 := hexCharVal_lt_16 c (h c (by simp))
    have ht : ∀ x ∈ t, isHexChar x = true := fun x hx => h x (by simp [hx])
    calc t.foldl (fun a x => 16 * a + hexCharVal x) (16 * acc + hexCharVal c)
        < (16 * acc + hexCharVal c + 1) * 16 ^ t.length := ih _ ht
      _ ≤ ((acc + 1) * 16) * 16 ^ t.length :=
          Nat.mul_le_mul_right _ (by omega)
      _ = (acc + 1) * 16 ^ (t.length + 1) := by ring
      _ = (acc + 1) * 16 ^ (c :: t).length := by simp

/-- `parseHex` of any string is below `16 ^ length`. -/
theorem parseHex_lt (s : String) : parseHex s < 16 ^ s.data.length := by
  have h := parseHexFold_lt (s.data.takeWhile isHexChar) 0
    (fun c hc => List.mem_takeWhile_imp hc)
  simp only [Nat.zero_add, Nat.one_mul] at h
  exact lt_of_lt_of_le h
    (Nat.pow_le_pow_right (by norm_num) (List.takeWhile_prefix isHexChar).length_le)

/-- The extracted trailing window of a digest is 13 characters. -/
theorem cohort_window_length (uid key : String) :
    (substrFrom (hash uid key) (HASH_LENGTH - MAX_SAFE_HEX_LENGTH)).data.length = 13 := by
  have h40 : (hash uid key).data.length = 40 := hash_length uid key
  simp [substrFrom, List.length_drop, h40, HASH_LENGTH_value, MAX_SAFE_HEX_LENGTH_value]

/-- The cohort value always lies in the closed interval `[0, 1]`.  The claimed
half-open bound `cohort < 1` would additionally require that no digest of
`uid ++ key` ends in thirteen `f` characters — equivalently that the parsed
window never equals `COHORT_DIVISOR` itself — which is a property of SHA-1
that can be neither established nor refuted here. -/
theorem cohortQ_mem_unit (uid key : String) : 0 ≤ cohortQ uid key ∧ cohortQ uid key ≤ 1 := by
  have hD : (0 : ℚ) < (COHORT_DIVISOR : ℚ) := by
    rw [COHORT_DIVISOR_value]; norm_num
  constructor
  · exact div_nonneg (Nat.cast_nonneg _) (le_of_lt hD)
  · rw [cohortQ, div_le_one hD]
    have hlt : parseHex (substrFrom (hash uid key) (HASH_LENGTH - MAX_SAFE_HEX_LENGTH)) <
        16 ^ 13 := by
      have := parseHex_lt (substrFrom (hash uid key) (HASH_LENGTH - MAX_SAFE_HEX_LENGTH))
      rwa [cohort_window_length] at this
    have hle : parseHex (substrFrom (hash uid key) (HASH_LENGTH - MAX_SAFE_HEX_LENGTH)) ≤
        COHORT_DIVISOR := by
      rw [COHORT_DIVISOR_value]; omega
    exact_mod_cast hle

/-- The general sampling path in full: for a rate strictly between 0 and 1,
the decision compares the rate against the value obtained by dropping the
first 27 of the digest's 40 characters (keeping the trailing 13), parsing
them as an unsigned integer and dividing by `COHORT_DIVISOR`; that value lies
in `[0, 1]`. -/
theorem isSampledUser_general_structure (rate : ℚ) (uid : Uid) (key : String)
    (h0 : 0 < rate) (h1 : rate < 1) :
    isSampledUser rate uid key =
      decide ((parseHex (substrFrom (hash (normalizeUid uid) key)
          (HASH_LENGTH - MAX_SAFE_HEX_LENGTH)) : ℚ) / (COHORT_DIVISOR : ℚ) < rate) ∧
    HASH_LENGTH = 40 ∧ MAX_SAFE_HEX_LENGTH = 13 ∧
    0 ≤ cohortOf uid key ∧ cohortOf uid key ≤ 1 := by
  refine ⟨?_, HASH_LENGTH_value, MAX_SAFE_HEX_LENGTH_value,
    (cohortQ_mem_unit (normalizeUid uid) key).1, (cohortQ_mem_unit (normalizeUid uid) key).2⟩
  simp only [isSampledUser, if_neg (ne_of_lt h1), if_neg (ne_of_gt h0), cohortQ]

/-- Witness for the general-path structure lemma at rate `1/2`. -/
theorem isSampledUser_general_structure_witness :
    (0 : ℚ) < 1/2 ∧ (1/2 : ℚ) < 1 ∧
    (isSampledUser (1/2) (Uid.str "00") "wibble" =
      decide ((parseHex (substrFrom (hash (normalizeUid (Uid.str "00")) "wibble")
          (HASH_LENGTH - MAX_SAFE_HEX_LENGTH)) : ℚ) / (COHORT_DIVISOR : ℚ) < 1/2) ∧
     HASH_LENGTH = 40 ∧ MAX_SAFE_HEX_LENGTH = 13 ∧
     0 ≤ cohortOf (Uid.str "00") "wibble" ∧ cohortOf (Uid.str "00") "wibble" ≤ 1) :=
  ⟨by norm_num, by norm_num,
    isSampledUser_general_structure (1/2) (Uid.str "00") "wibble" (by norm_num) (by norm_num)⟩

end FxaAuth

